import Mathlib

/-!
Verification of the `src/agent/__init__.py` module of the
`python-agent-template` repository.

The module body is embedded as a list of Python-like statements, and
module initialization is given an executable semantics over an
abstract resolution environment (a map from module name and attribute
name to an optional binding).  The raw source text is also embedded, together with a
small line classifier, so that the statement list can be proved to be the
parse of the actual file contents rather than a free-standing definition.
-/

namespace AgentInit

/-- A Python-like module-level statement.  Besides the statement forms
that actually occur in the file (a module docstring, a
from-import, and an assignment of a string-list literal), the type has
marker forms for local definitions, I/O-performing statements and raised
errors, so that their absence from the module body is a statement about
the embedded code and not about the expressiveness of the type. -/
inductive Stmt where
  | docstring (rawLines : List String)
  | importFrom (module : String) (name : String)
  | assignStrList (name : String) (items : List String)
  | defineName (name : String)
  | ioEffect (descr : String)
  | raiseError (msg : String)
deriving DecidableEq, Repr

/-- A value bound in a module namespace: either a binding obtained by a
from-import (carrying the imported object of abstract type `V`), a list
of string literals, or an object introduced by a local definition. -/
inductive Value (V : Type) where
  | imported (v : V)
  | strList (items : List String)
  | defined (name : String)
deriving DecidableEq, Repr

/-- The observable state of a module after (part of) its initialization:
the docstring, the name bindings of its namespace in binding order, and
the trace of external effects performed so far. -/
structure ModuleState (V : Type) where
  doc : Option (List String)
  bindings : List (String × Value V)
  effects : List String
deriving DecidableEq, Repr

/-- The empty module state, before any statement has run. -/
def initState (V : Type) : ModuleState V :=
  { doc := none, bindings := [], effects := [] }

/-- Overwrite the binding of a name in an association list if present,
otherwise append it, as assignment in a Python namespace does. -/
def setName {V : Type} : List (String × Value V) → String → Value V → List (String × Value V)
  | [], n, v => [(n, v)]
  | (k, w) :: rest, n, v =>
      if k == n then (k, v) :: rest else (k, w) :: setName rest n v

/-- Look up the binding of a name in a module state. -/
def lookupName {V : Type} (st : ModuleState V) (n : String) : Option (Value V) :=
  st.bindings.lookup n

/-- Errors module initialization can raise: failure to resolve a
from-import, or an explicitly raised error. -/
inductive PyError where
  | importError (module : String) (name : String)
  | raised (msg : String)
deriving DecidableEq, Repr

/-- An import environment: resolves a module name and an attribute name
to the bound object, or to `none` when resolution fails. -/
def ImportEnv (V : Type) : Type := String → String → Option V

/-- Execute one statement: the docstring statement records the
docstring, a from-import queries the environment and binds the imported
object under the imported name (raising an import error when resolution
fails), an assignment binds the literal, a definition binds the defined
object, an I/O statement appends to the effect trace, and a raise
statement fails. -/
def execStmt {V : Type} (env : ImportEnv V) (st : ModuleState V) :
    Stmt → Except PyError (ModuleState V)
  | .docstring ls => .ok { st with doc := some ls }
  | .importFrom m n =>
      match env m n with
      | some v => .ok { st with bindings := setName st.bindings n (Value.imported v) }
      | none => .error (PyError.importError m n)
  | .assignStrList n items =>
      .ok { st with bindings := setName st.bindings n (Value.strList items) }
  | .defineName n =>
      .ok { st with bindings := setName st.bindings n (Value.defined n) }
  | .ioEffect d => .ok { st with effects := st.effects ++ [d] }
  | .raiseError msg => .error (PyError.raised msg)

/-- Execute a statement list in order, stopping at the first error. -/
def execStmts {V : Type} (env : ImportEnv V) : ModuleState V → List Stmt → Except PyError (ModuleState V)
  | st, [] => .ok st
  | st, s :: ss =>
      match execStmt env st s with
      | .ok st2 => execStmts env st2 ss
      | .error e => .error e

/-- The lines of the module docstring, exactly as they appear in the
source file (delimiters included). -/
def docstringLines : List String :=
  [ "\"\"\"",
    "Agent Module.",
    "",
    "This module provides a LangGraph-based agent workflow for [DESCRIBE YOUR AGENT].",
    "",
    "Main exports:",
    "    - build_agent_graph: Builds the compiled workflow graph",
    "    - AgentState: State type definition",
    "    - [Other models and functions]",
    "",
    "Example:",
    "    >>> from src.agent import build_agent_graph",
    "    >>> graph = build_agent_graph()",
    "    >>> result = graph.invoke(\x7b\"input\": \"example query\"\x7d)",
    "\"\"\"" ]

/-- The string-list literal assigned to the export list in the source. -/
def exportList : List String := ["build_agent_graph", "AgentState"]

/-- The body of `src/agent/__init__.py` as a statement list: the module
docstring, the two from-imports, and the assignment of the export
list, in source order. -/
def moduleBody : List Stmt :=
  [ Stmt.docstring docstringLines,
    Stmt.importFrom "src.agent.state" "AgentState",
    Stmt.importFrom "src.agent.workflow" "build_agent_graph",
    Stmt.assignStrList "__all__" exportList ]

/-- Initialize the module: run its body from the empty state. -/
def initModule {V : Type} (env : ImportEnv V) : Except PyError (ModuleState V) :=
  execStmts env (initState V) moduleBody

/-- The raw text of `src/agent/__init__.py`, line by line.  The file has
no trailing newline, so its final line is the closing bracket. -/
def sourceLines : List String :=
  docstringLines ++
  [ "",
    "from src.agent.state import AgentState",
    "from src.agent.workflow import build_agent_graph",
    "",
    "__all__ = [",
    "    \"build_agent_graph\",",
    "    \"AgentState\",",
    "]" ]

/-- Does a character list start with the given pattern?  Defined over
`List Char` (rather than with the built-in `String` primitives) so that
parsing results evaluate inside the kernel. -/
def startsWithChars : List Char → List Char → Bool
  | _, [] => true
  | [], _ :: _ => false
  | c :: cs, p :: ps => c == p && startsWithChars cs ps

/-- Does a character list end with the given pattern? -/
def endsWithChars (l pat : List Char) : Bool :=
  startsWithChars l.reverse pat.reverse

/-- Remove leading and trailing spaces from a character list. -/
def trimChars (l : List Char) : List Char :=
  (((l.dropWhile (· == ' ')).reverse.dropWhile (· == ' ')).reverse)

/-- Split a character list at every occurrence of a separator
character; empty segments are kept. -/
def splitChar (sep : Char) : List Char → List Char → List (List Char)
  | [], acc => [acc.reverse]
  | c :: cs, acc =>
      if c == sep then acc.reverse :: splitChar sep cs []
      else splitChar sep cs (c :: acc)

/-- Join character lists with a separator character in between. -/
def joinWith (sep : Char) : List (List Char) → List Char
  | [] => []
  | [x] => x
  | x :: y :: xs => x ++ sep :: joinWith sep (y :: xs)

/-- The three characters of a triple-quote delimiter. -/
def tripleQuote : List Char := ['\"', '\"', '\"']

/-- Strip one trailing comma (if any) and the surrounding doublequotes
from one line of a string-list literal, returning the string literal it
holds, or `none` when the line is not such an entry. -/
def parseItem (l : List Char) : Option String :=
  let t := trimChars l
  let t := if endsWithChars t [','] then t.dropLast else t
  match t with
  | '\"' :: rest =>
      if endsWithChars rest ['\"'] && !rest.isEmpty then
        some (String.mk rest.dropLast)
      else none
  | _ => none

/-- Consume the entries of a string-list literal up to the closing
bracket line, returning the entries and the remaining lines. -/
def parseItems : List (List Char) → Option (List String × List (List Char))
  | [] => none
  | l :: ls =>
      if trimChars l == [']'] then some ([], ls)
      else
        match parseItem l, parseItems ls with
        | some s, some (items, rest) => some (s :: items, rest)
        | _, _ => none

/-- Consume the lines of a triple-quoted docstring after its opening
line, up to and including the closing delimiter line, returning the
consumed lines and the remaining lines. -/
def parseDocRest : List (List Char) → Option (List String × List (List Char))
  | [] => none
  | l :: ls =>
      if endsWithChars l tripleQuote then some ([String.mk l], ls)
      else
        match parseDocRest ls with
        | some (docLs, rest) => some (String.mk l :: docLs, rest)
        | none => none

/-- Parse source lines into module statements.  Only the declarative
forms are accepted: blank lines, a triple-quoted docstring, a line of
the form `from M import N`, and a string-list literal assignment opened
by a line of the form `X = [`.  Anything else fails the parse.  The
first argument is recursion fuel. -/
def parseLines : Nat → List (List Char) → Option (List Stmt)
  | 0, _ => none
  | _ + 1, [] => some []
  | fuel + 1, l :: ls =>
      if l.isEmpty then parseLines fuel ls
      else if l == tripleQuote then
        match parseDocRest ls with
        | some (docLs, rest) =>
            (parseLines fuel rest).map
              (fun ss => Stmt.docstring (String.mk l :: docLs) :: ss)
        | none => none
      else if startsWithChars l ("from ".data) then
        match splitChar ' ' l [] with
        | [f, m, i, n] =>
            if f == "from".data && i == "import".data then
              (parseLines fuel ls).map
                (fun ss => Stmt.importFrom (String.mk m) (String.mk n) :: ss)
            else none
        | _ => none
      else if endsWithChars l (" = [".data) then
        match parseItems ls with
        | some (items, rest) =>
            (parseLines fuel rest).map
              (fun ss => Stmt.assignStrList (String.mk (l.take (l.length - 4))) items :: ss)
        | none => none
      else none

/-- Parse a whole source file given as its list of lines. -/
def parseModule (lines : List String) : Option (List Stmt) :=
  parseLines (lines.length + 1) (lines.map String.data)

/-- The source files present in this repository snapshot, as paths
relative to the repository root. -/
def snapshotFiles : List String := ["src/agent/__init__.py"]

/-- The file a dotted module name resolves to. -/
def moduleFile (m : String) : String :=
  String.mk (joinWith '/' (splitChar '.' m.data []) ++ ".py".data)

/-- The import environment induced by this repository snapshot: an
attribute of a module resolves only if the file of that module is
present in the snapshot.  No sibling module file is present, so every
resolution of a sibling attribute fails. -/
def snapshotEnv : ImportEnv Unit :=
  fun m _ => if moduleFile m ∈ snapshotFiles then some () else none

/-- Is a statement a from-import? -/
def isImportStmt : Stmt → Bool
  | Stmt.importFrom _ _ => true
  | _ => false

/-- Is a statement a local definition (function or class body)? -/
def isDefStmt : Stmt → Bool
  | Stmt.defineName _ => true
  | _ => false

/-- Is a statement an assignment statement? -/
def isAssignStmt : Stmt → Bool
  | Stmt.assignStrList _ _ => true
  | _ => false

/-- Is a statement purely declarative: a docstring, a from-import or a
literal assignment, as opposed to a definition, an I/O-performing
statement, or a raise? -/
def isDeclarative : Stmt → Bool
  | Stmt.docstring _ => true
  | Stmt.importFrom _ _ => true
  | Stmt.assignStrList _ _ => true
  | Stmt.defineName _ => false
  | Stmt.ioEffect _ => false
  | Stmt.raiseError _ => false

/-- Characterization of module initialization: it queries the import
environment for the two sibling attributes in source order, fails with
the corresponding import error when a query fails, and otherwise
produces the namespace with the docstring, the two imported bindings
and the export-list binding, with an empty effect trace. -/
theorem initModule_eq {V : Type} (env : ImportEnv V) :
    initModule env =
      match env "src.agent.state" "AgentState" with
      | none => Except.error (PyError.importError "src.agent.state" "AgentState")
      | some vs =>
        match env "src.agent.workflow" "build_agent_graph" with
        | none => Except.error (PyError.importError "src.agent.workflow" "build_agent_graph")
        | some vw =>
          Except.ok
            { doc := some docstringLines,
              bindings := [("AgentState", Value.imported vs),
                           ("build_agent_graph", Value.imported vw),
                           ("__all__", Value.strList exportList)],
              effects := [] } := by
  cases hs : env "src.agent.state" "AgentState" <;>
    cases hw : env "src.agent.workflow" "build_agent_graph" <;>
      simp [initModule, moduleBody, execStmts, execStmt, initState, setName, hs, hw]

/-- An import environment over abstract values `Nat`, used by the
concrete witnesses: the two sibling attributes resolve to `1` and `2`
respectively, and nothing else resolves. -/
def witnessEnv : ImportEnv Nat := fun m n =>
  if m == "src.agent.state" && n == "AgentState" then some 1
  else if m == "src.agent.workflow" && n == "build_agent_graph" then some 2
  else none

/-- The namespace produced by initialization under `witnessEnv`. -/
def witnessState : ModuleState Nat :=
  { doc := some docstringLines,
    bindings := [("AgentState", Value.imported 1),
                 ("build_agent_graph", Value.imported 2),
                 ("__all__", Value.strList exportList)],
    effects := [] }

/-- C1: whenever module initialization succeeds, the names
`build_agent_graph` and `AgentState` are both bound in the package
namespace, and the export list `__all__` is bound to exactly the
two-entry list with those names and nothing else. -/
theorem c1_public_surface {V : Type} (env : ImportEnv V) (st : ModuleState V)
    (h : initModule env = Except.ok st) :
    (lookupName st "build_agent_graph").isSome = true ∧
    (lookupName st "AgentState").isSome = true ∧
    lookupName st "__all__" = some (Value.strList ["build_agent_graph", "AgentState"]) := by
  rw [initModule_eq] at h
  cases hs : env "src.agent.state" "AgentState" with
  | none => rw [hs] at h; cases h
  | some vs =>
    cases hw : env "src.agent.workflow" "build_agent_graph" with
    | none => rw [hs, hw] at h; cases h
    | some vw =>
      rw [hs, hw] at h
      cases h
      simp [lookupName, List.lookup, exportList]

/-- C1 witness: under the concrete environment `witnessEnv`,
initialization succeeds and the public surface is as stated. -/
theorem c1_public_surface_witness :
    (lookupName witnessState "build_agent_graph").isSome = true ∧
    (lookupName witnessState "AgentState").isSome = true ∧
    lookupName witnessState "__all__" = some (Value.strList ["build_agent_graph", "AgentState"]) :=
  c1_public_surface witnessEnv witnessState (by rw [initModule_eq]; rfl)

/-- C2: the module body defines nothing itself: its only import
statements are `AgentState` from `src.agent.state` and
`build_agent_graph` from `src.agent.workflow`, in that order, it
contains no local definition, and its only assignment restates exactly
those two names in the export list `__all__`. -/
theorem c2_reexport_plumbing :
    moduleBody.filter isImportStmt =
      [Stmt.importFrom "src.agent.state" "AgentState",
       Stmt.importFrom "src.agent.workflow" "build_agent_graph"] ∧
    moduleBody.filter isDefStmt = [] ∧
    moduleBody.filter isAssignStmt = [Stmt.assignStrList "__all__" exportList] ∧
    exportList = ["build_agent_graph", "AgentState"] := by
  decide

/-- C3: module initialization fails exactly when resolution of one of
the two referenced sibling attributes fails; when both resolve it
succeeds, and there is no other failure mode. -/
theorem c3_failure_iff_import_failure {V : Type} (env : ImportEnv V) :
    (initModule env).isOk = false ↔
      env "src.agent.state" "AgentState" = none ∨
      env "src.agent.workflow" "build_agent_graph" = none := by
  rw [initModule_eq]
  cases hs : env "src.agent.state" "AgentState" <;>
    cases hw : env "src.agent.workflow" "build_agent_graph" <;>
      simp [Except.isOk, Except.toBool]

/-- C4: a successful initialization has an empty external-effect trace,
and its entire observable outcome is the docstring together with the
bindings of exactly the three names `AgentState`, `build_agent_graph`
and `__all__`, in that order. -/
theorem c4_no_side_effects {V : Type} (env : ImportEnv V) (st : ModuleState V)
    (h : initModule env = Except.ok st) :
    st.effects = [] ∧
    st.bindings.map Prod.fst = ["AgentState", "build_agent_graph", "__all__"] ∧
    st.doc = some docstringLines := by
  rw [initModule_eq] at h
  cases hs : env "src.agent.state" "AgentState" with
  | none => rw [hs] at h; cases h
  | some vs =>
    cases hw : env "src.agent.workflow" "build_agent_graph" with
    | none => rw [hs, hw] at h; cases h
    | some vw =>
      rw [hs, hw] at h
      cases h
      simp

/-- C4 witness: the frame property at the concrete environment
`witnessEnv`. -/
theorem c4_no_side_effects_witness :
    witnessState.effects = [] ∧
    witnessState.bindings.map Prod.fst = ["AgentState", "build_agent_graph", "__all__"] ∧
    witnessState.doc = some docstringLines :=
  c4_no_side_effects witnessEnv witnessState (by rw [initModule_eq]; rfl)

/-- C5: the source lines of the file parse into a straight-line
statement list consisting of exactly the docstring, the two imports and
the export-list assignment, in that fixed order; every statement is
declarative (no definition, no I/O, no raise, hence no algorithmic
content or control flow). -/
theorem c5_no_algorithmic_content :
    parseModule sourceLines =
      some [Stmt.docstring docstringLines,
            Stmt.importFrom "src.agent.state" "AgentState",
            Stmt.importFrom "src.agent.workflow" "build_agent_graph",
            Stmt.assignStrList "__all__" ["build_agent_graph", "AgentState"]] ∧
    parseModule sourceLines = some moduleBody ∧
    moduleBody.all isDeclarative = true := by
  decide

/-- C6: neither referenced sibling module has its file in the
repository snapshot, and under the import environment induced by the
snapshot, initialization fails with the import error for the first
sibling rather than completing. -/
theorem c6_snapshot_fails :
    moduleFile "src.agent.state" ∉ snapshotFiles ∧
    moduleFile "src.agent.workflow" ∉ snapshotFiles ∧
    initModule snapshotEnv =
      Except.error (PyError.importError "src.agent.state" "AgentState") :=
  ⟨by decide, by decide, by rw [initModule_eq]; rfl⟩

/-- C7: the source file is exactly 23 lines, and all of them are
consumed by the declarative-only parser (docstring, blank lines,
imports, export-list literal), leaving zero lines of novel logic. -/
theorem c7_no_novel_logic :
    sourceLines.length = 23 ∧
    parseModule sourceLines = some moduleBody ∧
    moduleBody.countP (fun s => !(isDeclarative s)) = 0 := by
  decide

/-- C8: the export list is duplicate-free and holds exactly two string
literals in fixed order: `build_agent_graph` at index 0 and
`AgentState` at index 1. -/
theorem c8_export_list_exact :
    exportList.Nodup ∧
    exportList.length = 2 ∧
    exportList[0]? = some "build_agent_graph" ∧
    exportList[1]? = some "AgentState" := by
  decide

/-- C9: re-export preserves identity and name: when the sibling
attributes resolve to `vs` and `vw`, the package attributes of the same
names are exactly those imported bindings, unwrapped and unrenamed. -/
theorem c9_identity_preserved {V : Type} (env : ImportEnv V) (vs vw : V)
    (st : ModuleState V)
    (hs : env "src.agent.state" "AgentState" = some vs)
    (hw : env "src.agent.workflow" "build_agent_graph" = some vw)
    (h : initModule env = Except.ok st) :
    lookupName st "AgentState" = some (Value.imported vs) ∧
    lookupName st "build_agent_graph" = some (Value.imported vw) := by
  rw [initModule_eq, hs, hw] at h
  cases h
  simp [lookupName, List.lookup]

/-- C9 witness: identity preservation at the concrete environment
`witnessEnv`, whose two sibling bindings are `1` and `2`. -/
theorem c9_identity_preserved_witness :
    lookupName witnessState "AgentState" = some (Value.imported 1) ∧
    lookupName witnessState "build_agent_graph" = some (Value.imported 2) :=
  c9_identity_preserved witnessEnv 1 2 witnessState rfl rfl
    (by rw [initModule_eq]; rfl)

/-- C10: initialization is deterministic and depends only on the two
sibling bindings: any two environments that agree on them produce
identical outcomes (same bindings, same export list, same docstring, or
the same error). -/
theorem c10_deterministic {V : Type} (env1 env2 : ImportEnv V)
    (h1 : env1 "src.agent.state" "AgentState" = env2 "src.agent.state" "AgentState")
    (h2 : env1 "src.agent.workflow" "build_agent_graph" =
          env2 "src.agent.workflow" "build_agent_graph") :
    initModule env1 = initModule env2 := by
  rw [initModule_eq, initModule_eq, h1, h2]

/-- C10 witness: two environments that agree on the two sibling
bindings but differ everywhere else initialize identically. -/
theorem c10_deterministic_witness :
    initModule witnessEnv =
      initModule (fun m n =>
        if m == "src.agent.state" && n == "AgentState" then some 1
        else if m == "src.agent.workflow" && n == "build_agent_graph" then some 2
        else some 99) :=
  c10_deterministic _ _ rfl rfl

end AgentInit
